import Mathlib

/-!
Shallow embedding of the front-end API client of the ai_healthcare
repository (src/frontend/src/pages/Landing.jsx, second document: the
lib/api module) and the login form submit handler (src/unnamed/part_000).

JavaScript values appearing as parsed response bodies are modelled by the
inductive type `Json`; truthiness, property access and the logical-or
value semantics of JavaScript are embedded explicitly.  `localStorage`
is modelled by `Storage`, restricted to the two keys the code uses, and
storage writes are tracked as explicit write lists so that frame
properties (which keys were written) are expressible.
-/

namespace ApiClient

/-- A JavaScript/JSON value as produced by `res.json()` or built by the
client code.  Numbers are restricted to integers (no claim involves
non-integral numbers). -/
inductive Json where
  | null
  | bool (b : Bool)
  | num (n : Int)
  | str (s : String)
  | arr (xs : List Json)
  | obj (fields : List (String × Json))

/-- JavaScript truthiness of a value (`undefined` is represented by
`Json.null`; both are falsy). -/
def jsTruthy : Json → Bool
  | .null => false
  | .bool b => b
  | .num n => n != 0
  | .str s => s != ""
  | .arr _ => true
  | .obj _ => true

/-- The value of the JavaScript expression `a || b`: `a` when `a` is
truthy, else `b`. -/
def jsOr (a b : Json) : Json :=
  if jsTruthy a then a else b

/-- Property access `v.k`: the field value on an object that has the
key, otherwise `Json.null` (standing for `undefined`). -/
def getProp (v : Json) (k : String) : Json :=
  match v with
  | .obj fields =>
    match fields.find? (fun p => p.1 == k) with
    | some p => p.2
    | none => .null
  | _ => .null

mutual

/-- JavaScript string coercion `String(v)` as applied by
`localStorage.setItem` and the `Error` constructor.  Arrays stringify by
joining the coercions of their elements with a comma, with null elements
contributing the empty string; objects give the generic tag. -/
def jsToString : Json → String
  | .null => "null"
  | .bool true => "true"
  | .bool false => "false"
  | .num n => toString n
  | .str s => s
  | .obj _ => "[object Object]"
  | .arr xs => String.intercalate "," (jsArrParts xs)

/-- Coercions of the elements of an array, null elements contributing
the empty string. -/
def jsArrParts : List Json → List String
  | [] => []
  | .null :: xs => "" :: jsArrParts xs
  | x :: xs => jsToString x :: jsArrParts xs

end

/-- JavaScript `s.includes(pat)`: contiguous substring containment,
expressed on the underlying character lists. -/
def containsSubstr (s pat : String) : Bool :=
  decide (pat.data <:+: s.data)

/-! ## The fetch response and `apiFetch` (Landing.jsx, lib/api document,
lines 47 to 68)

A `Response` records the observations `apiFetch` makes of the resolved
fetch: the HTTP status, the value of the `content-type` header
(`Option.none` when the header is absent, as `res.headers.get` then
returns `null`), the value `res.json()` resolves to and the value
`res.text()` resolves to.  `apiFetch` consults exactly one of the two
bodies depending on the content type.  Header construction, which is
independent of the response, is modelled separately below by
`apiFetchHeaders`. -/

structure Response where
  status : Nat
  contentType : Option String
  jsonBody : Json
  textBody : String

/-- `res.ok`: the HTTP status is in the success range 200 to 299. -/
def Response.ok (r : Response) : Bool :=
  decide (200 ≤ r.status) && decide (r.status ≤ 299)

/-- The structured error raised by `apiFetch` on a non-success status:
`msgVal` is the value passed to the `Error` constructor (which coerces
it to the message string), `status` and `data` are the fields attached
to the error object. -/
structure ApiError where
  msgVal : Json
  status : Nat
  data : Json

/-- Body interpretation of `apiFetch`: if the content-type header
(defaulted to the empty string when absent) contains
`application/json`, the parsed JSON body; otherwise the text body
wrapped as an object with a `message` field when non-empty, else
`null`. -/
def interpretBody (r : Response) : Json :=
  let contentType := r.contentType.getD ""
  if containsSubstr contentType "application/json" then r.jsonBody
  else if r.textBody != "" then Json.obj [("message", Json.str r.textBody)]
  else Json.null

/-- The message value computed on the failure path of `apiFetch`:
the JavaScript expression
`(data && (data.error || data.message)) || ("Request failed with " + status)`. -/
def errMsgVal (data : Json) (status : Nat) : Json :=
  let inner := if jsTruthy data then jsOr (getProp data "error") (getProp data "message") else data
  jsOr inner (.str ("Request failed with " ++ toString status))

/-- Response handling of `apiFetch`: interpret the body; on a success
status return it, otherwise raise an error carrying the message value,
the status and the interpreted body. -/
def apiFetch (r : Response) : Except ApiError Json :=
  let data := interpretBody r
  if r.ok then .ok data
  else .error ⟨errMsgVal data r.status, r.status, data⟩

/-! ## Local storage and token persistence (lines 38 to 45 and 79 to 94) -/

/-- The two `localStorage` keys the client uses.  `Option.none` models
an absent key (`getItem` returning `null`). -/
structure Storage where
  access_token : Option String
  refresh_token : Option String
deriving DecidableEq

/-- `localStorage.getItem` restricted to the keys the client touches. -/
def Storage.getItem (s : Storage) (k : String) : Option String :=
  if k = "access_token" then s.access_token
  else if k = "refresh_token" then s.refresh_token
  else none

/-- `localStorage.setItem` restricted to the keys the client touches. -/
def Storage.setItem (s : Storage) (k v : String) : Storage :=
  if k = "access_token" then ⟨some v, s.refresh_token⟩
  else if k = "refresh_token" then ⟨s.access_token, some v⟩
  else s

/-- `getStoredAccessToken`: the stored access token defaulted to null
by logical or, so an empty stored string is also reported as absent. -/
def getStoredAccessToken (s : Storage) : Option String :=
  match s.getItem "access_token" with
  | some t => if t != "" then some t else none
  | none => none

/-- `authHeaders`: a singleton Authorization header when a token is
stored, else the empty header object. -/
def authHeaders (s : Storage) : List (String × String) :=
  match getStoredAccessToken s with
  | some token => [("Authorization", "Bearer " ++ token)]
  | none => []

/-- Lookup in a header object modelled as an association list. -/
def objGet (o : List (String × String)) (k : String) : Option String :=
  (o.find? (fun p => p.1 == k)).map (fun p => p.2)

/-- JavaScript object spread merge of two header objects: keys of the
second spread override keys of the first.  With the first-match lookup
of `objGet`, listing the later spread first gives it precedence. -/
def objMerge (a b : List (String × String)) : List (String × String) :=
  b ++ a

/-- The outgoing headers of `apiFetch`:
spread of the Content-Type base header, then `authHeaders()`, then the
caller-supplied `options.headers` (defaulted to the empty object). -/
def apiFetchHeaders (s : Storage) (optionsHeaders : List (String × String)) :
    List (String × String) :=
  let baseHeaders := objMerge [("Content-Type", "application/json")] (authHeaders s)
  objMerge baseHeaders optionsHeaders

/-- The list of `setItem` calls performed by `storeTokens(tokenObj)`:
none when `tokenObj` is falsy, otherwise one per token field whose value
is truthy, in source order. -/
def storeTokensWrites (tokenObj : Json) : List (String × String) :=
  if !jsTruthy tokenObj then []
  else
    (if jsTruthy (getProp tokenObj "access_token") then
       [("access_token", jsToString (getProp tokenObj "access_token"))] else []) ++
    (if jsTruthy (getProp tokenObj "refresh_token") then
       [("refresh_token", jsToString (getProp tokenObj "refresh_token"))] else [])

/-- Apply a list of `setItem` calls to the storage, in order. -/
def applyWrites (s : Storage) (ws : List (String × String)) : Storage :=
  ws.foldl (fun st p => st.setItem p.1 p.2) s

/-- `storeTokens` as a storage transformer: the effect of its `setItem`
calls. -/
def storeTokens (tokenObj : Json) (s : Storage) : Storage :=
  applyWrites s (storeTokensWrites tokenObj)

/-! ## `refreshToken` (lines 85 to 94) -/

/-- An error value thrown by the client code: a plain `Error` with a
message string, the structured error of `apiFetch`, or a rejected
`fetch` (network failure). -/
inductive JsError where
  | simple (message : String)
  | api (e : ApiError)
  | network

/-- A network request issued through `fetch`, recorded before JSON
serialisation of the body. -/
structure FetchCall where
  path : String
  method : String
  body : Json

/-- The observable outcome of a `refreshToken()` call: its return value
or thrown error, the network requests it issued, the `setItem` calls it
performed, and the resulting storage. -/
structure RefreshResult where
  result : Except JsError Json
  calls : List FetchCall
  writes : List (String × String)
  storage : Storage

/-- `refreshToken()`: read the persisted refresh token; throw without
any network call when it is absent (or empty, both being falsy);
otherwise POST it to `/auth/refresh`.  `net` is the network behaviour
of that single potential request: `none` models a rejected fetch,
`some resp` the response it resolves to.  On success of `apiFetch` the
returned data is persisted with `storeTokens` and returned. -/
def refreshToken (s : Storage) (net : Option Response) : RefreshResult :=
  match s.getItem "refresh_token" with
  | none => ⟨.error (.simple "No refresh token found"), [], [], s⟩
  | some rt =>
    if rt = "" then ⟨.error (.simple "No refresh token found"), [], [], s⟩
    else
      let call : FetchCall := ⟨"/auth/refresh", "POST", Json.obj [("refresh_token", Json.str rt)]⟩
      match net with
      | none => ⟨.error .network, [call], [], s⟩
      | some resp =>
        match apiFetch resp with
        | .error e => ⟨.error (.api e), [call], [], s⟩
        | .ok data => ⟨.ok data, [call], storeTokensWrites data, storeTokens data s⟩

/-! ## The login form submit handler (src/unnamed/part_000, `onSubmit`) -/

/-- The message string of a thrown error value, `err?.message`:
for the structured `apiFetch` error the `Error` constructor coerced the
message value to a string.  A rejected fetch carries the
environment-provided failure message. -/
def errMessageStr : JsError → String
  | .simple m => m
  | .api e => jsToString e.msgVal
  | .network => "Failed to fetch"

/-- The error message computed in the catch branch of `onSubmit`:
when `err?.data?.detail` is an array, the coercions of the truthy `msg`
fields of its elements joined with a comma and space; otherwise
`err?.message || "Login failed"`. -/
def loginCatchMessage (err : JsError) : String :=
  let details : Json :=
    match err with
    | .api e => getProp e.data "detail"
    | _ => Json.null
  match details with
  | .arr ds =>
    String.intercalate ", " (((ds.map fun d => getProp d "msg").filter jsTruthy).map jsToString)
  | _ =>
    let m := errMessageStr err
    if m != "" then m else "Login failed"

/-- The component state of the login form that `onSubmit` writes. -/
structure LoginUI where
  error : String
  message : String
  loading : Bool
deriving DecidableEq

/-- The observable outcome of one `onSubmit` run. -/
structure SubmitResult where
  ui : LoginUI
  storage : Storage
  navigated : Bool

/-- `onSubmit`, given the outcome of the awaited `login(...)` call:
on a response with a truthy token field, persist the tokens, show the
success message and schedule navigation; on a token-less response show
the fixed failure message; on a thrown error show the extracted
message.  The finally block clears the loading flag in every case. -/
def onSubmit (s : Storage) (loginResult : Except JsError Json) : SubmitResult :=
  match loginResult with
  | .ok res =>
    if jsTruthy res &&
        (jsTruthy (getProp res "access_token") || jsTruthy (getProp res "refresh_token")) then
      ⟨⟨"", "Login successful! Redirecting...", false⟩, storeTokens res s, true⟩
    else
      ⟨⟨"Login succeeded but no token returned. Please verify API response.", "", false⟩, s, false⟩
  | .error err =>
    ⟨⟨loginCatchMessage err, "", false⟩, s, false⟩

/-! ## Helper lemmas -/

/-- Property access on a falsy value yields `null`: every falsy value is
a non-object (`null`, a `Bool`, a number or a string). -/
lemma getProp_of_not_truthy (v : Json) (k : String) (h : jsTruthy v = false) :
    getProp v k = .null := by
  cases v <;> simp_all [jsTruthy, getProp]

/-- The failure-path message value equals the selection the spec
describes: `data.error` when truthy, else `data.message` when truthy,
else the generic message. -/
lemma errMsgVal_eq (d : Json) (st : Nat) :
    errMsgVal d st =
      (if jsTruthy (getProp d "error") then getProp d "error"
       else if jsTruthy (getProp d "message") then getProp d "message"
       else .str ("Request failed with " ++ toString st)) := by
  unfold errMsgVal jsOr
  by_cases hd : jsTruthy d
  · by_cases he : jsTruthy (getProp d "error") <;>
      by_cases hm : jsTruthy (getProp d "message") <;>
        simp [hd, he, hm]
  · have hd' : jsTruthy d = false := by simpa using hd
    have hnull : jsTruthy Json.null = false := rfl
    rw [getProp_of_not_truthy _ _ hd', getProp_of_not_truthy _ _ hd']
    simp [hd', hnull]

end ApiClient

namespace ApiClient

/-- C1: for every response with a non-success HTTP status, `apiFetch`
raises an error whose `status` field equals the HTTP status, whose
`data` field is the parsed body, and whose message is `data.error` if
present (truthy), else `data.message` if present (truthy), else the
string "Request failed with <status>". -/
theorem apiFetch_error_fields (r : Response) (h : r.ok = false) :
    ∃ e : ApiError, apiFetch r = .error e ∧
      e.status = r.status ∧
      e.data = interpretBody r ∧
      e.msgVal =
        (if jsTruthy (getProp (interpretBody r) "error") then
           getProp (interpretBody r) "error"
         else if jsTruthy (getProp (interpretBody r) "message") then
           getProp (interpretBody r) "message"
         else .str ("Request failed with " ++ toString r.status)) := by
  refine ⟨⟨errMsgVal (interpretBody r) r.status, r.status, interpretBody r⟩, ?_, rfl, rfl, ?_⟩
  · simp [apiFetch, h]
  · exact errMsgVal_eq _ _

/-- Witness for C1 at a concrete 404 JSON response. -/
theorem apiFetch_error_fields_witness :
    ∃ e : ApiError,
      apiFetch ⟨404, some "application/json", Json.obj [("error", Json.str "nope")], ""⟩
        = .error e ∧
      e.status = 404 ∧
      e.data = interpretBody ⟨404, some "application/json",
        Json.obj [("error", Json.str "nope")], ""⟩ ∧
      e.msgVal =
        (if jsTruthy (getProp (interpretBody ⟨404, some "application/json",
             Json.obj [("error", Json.str "nope")], ""⟩) "error") then
           getProp (interpretBody ⟨404, some "application/json",
             Json.obj [("error", Json.str "nope")], ""⟩) "error"
         else if jsTruthy (getProp (interpretBody ⟨404, some "application/json",
             Json.obj [("error", Json.str "nope")], ""⟩) "message") then
           getProp (interpretBody ⟨404, some "application/json",
             Json.obj [("error", Json.str "nope")], ""⟩) "message"
         else .str ("Request failed with " ++ toString 404)) :=
  apiFetch_error_fields ⟨404, some "application/json", Json.obj [("error", Json.str "nope")], ""⟩
    rfl

/-- C6: for every response with an HTTP status in the success range,
`apiFetch` raises no error regardless of body shape and returns the
parsed body as-is. -/
theorem apiFetch_success_returns_body (r : Response) (h : r.ok = true) :
    apiFetch r = .ok (interpretBody r) := by
  simp [apiFetch, h]

/-- Witness for C6 at a concrete 204 empty-body response. -/
theorem apiFetch_success_returns_body_witness :
    apiFetch ⟨204, none, Json.null, ""⟩ = .ok (interpretBody ⟨204, none, Json.null, ""⟩) :=
  apiFetch_success_returns_body ⟨204, none, Json.null, ""⟩ rfl

/-- C2: `apiFetch` interprets the body by content-type: a JSON
content-type yields the parsed JSON value unchanged (returned on
success, wrapped into the error data on failure); a non-JSON response
yields the wrapped text for a non-empty body and `null` for an empty
one. -/
theorem apiFetch_body_interpretation (r : Response) :
    (containsSubstr (r.contentType.getD "") "application/json" = true →
       interpretBody r = r.jsonBody) ∧
    (containsSubstr (r.contentType.getD "") "application/json" = false →
       interpretBody r = (if r.textBody = "" then Json.null
                          else Json.obj [("message", Json.str r.textBody)])) ∧
    (r.ok = true → apiFetch r = .ok (interpretBody r)) ∧
    (r.ok = false →
       ∃ e : ApiError, apiFetch r = .error e ∧ e.data = interpretBody r) := by
  refine ⟨fun h => ?_, fun h => ?_, fun h => ?_, fun h => ?_⟩
  · simp [interpretBody, h]
  · by_cases ht : r.textBody = "" <;> simp [interpretBody, h, ht]
  · simp [apiFetch, h]
  · exact ⟨⟨errMsgVal (interpretBody r) r.status, r.status, interpretBody r⟩,
      by simp [apiFetch, h], rfl⟩

/-- Witness for C2: a 200 JSON response with a parameterised
content-type, and a 500 response with no content-type header. -/
theorem apiFetch_body_interpretation_witness :
    interpretBody ⟨200, some "application/json; charset=utf-8", Json.num 5, "zz"⟩ =
        Json.num 5 ∧
    apiFetch ⟨200, some "application/json; charset=utf-8", Json.num 5, "zz"⟩ =
        .ok (interpretBody ⟨200, some "application/json; charset=utf-8", Json.num 5, "zz"⟩) ∧
    interpretBody ⟨500, none, Json.null, "oops"⟩ =
        (if ("oops" : String) = "" then Json.null
         else Json.obj [("message", Json.str "oops")]) ∧
    (∃ e : ApiError, apiFetch ⟨500, none, Json.null, "oops"⟩ = .error e ∧
        e.data = interpretBody ⟨500, none, Json.null, "oops"⟩) :=
  ⟨(apiFetch_body_interpretation ⟨200, some "application/json; charset=utf-8",
      Json.num 5, "zz"⟩).1 (by decide),
   (apiFetch_body_interpretation ⟨200, some "application/json; charset=utf-8",
      Json.num 5, "zz"⟩).2.2.1 rfl,
   (apiFetch_body_interpretation ⟨500, none, Json.null, "oops"⟩).2.1 (by decide),
   (apiFetch_body_interpretation ⟨500, none, Json.null, "oops"⟩).2.2.2 rfl⟩

/-- C10: JSON detection is substring containment of `application/json`
in the content-type: a content-type with parameters is parsed as JSON,
a missing content-type header is treated as non-JSON text, and the
detection predicate is exactly contiguous substring containment. -/
theorem contentType_substring_detection :
    (∀ r : Response, r.contentType = some "application/json; charset=utf-8" →
       interpretBody r = r.jsonBody) ∧
    (∀ r : Response, r.contentType = none →
       interpretBody r =
         (if r.textBody = "" then Json.null
          else Json.obj [("message", Json.str r.textBody)])) ∧
    (∀ ct : String, containsSubstr ct "application/json" = true ↔
       "application/json".data <:+: ct.data) := by
  refine ⟨fun r h => ?_, fun r h => ?_, fun ct => ?_⟩
  · have hc : containsSubstr "application/json; charset=utf-8" "application/json" = true := by
      decide
    simp [interpretBody, h, hc]
  · have hc : containsSubstr "" "application/json" = false := by decide
    by_cases ht : r.textBody = "" <;> simp [interpretBody, h, hc, ht]
  · simp [containsSubstr]

/-- Witness for C10: the parameterised content-type takes the JSON
branch, the absent header takes the text branch. -/
theorem contentType_substring_detection_witness :
    interpretBody ⟨200, some "application/json; charset=utf-8", Json.num 7, "t"⟩ =
        Json.num 7 ∧
    interpretBody ⟨200, none, Json.bool true, "plain"⟩ =
        (if ("plain" : String) = "" then Json.null
         else Json.obj [("message", Json.str "plain")]) :=
  ⟨contentType_substring_detection.1 ⟨200, some "application/json; charset=utf-8",
      Json.num 7, "t"⟩ rfl,
   contentType_substring_detection.2.1 ⟨200, none, Json.bool true, "plain"⟩ rfl⟩

/-- A write to the access key happens only when the access field is
truthy. -/
lemma mem_storeTokensWrites_access (tok : Json) (v : String)
    (h : ("access_token", v) ∈ storeTokensWrites tok) :
    jsTruthy (getProp tok "access_token") = true := by
  by_cases h1 : jsTruthy tok <;>
    by_cases h2 : jsTruthy (getProp tok "access_token") <;>
      by_cases h3 : jsTruthy (getProp tok "refresh_token") <;>
        simp_all [storeTokensWrites]

/-- A write to the refresh key happens only when the refresh field is
truthy. -/
lemma mem_storeTokensWrites_refresh (tok : Json) (v : String)
    (h : ("refresh_token", v) ∈ storeTokensWrites tok) :
    jsTruthy (getProp tok "refresh_token") = true := by
  by_cases h1 : jsTruthy tok <;>
    by_cases h2 : jsTruthy (getProp tok "access_token") <;>
      by_cases h3 : jsTruthy (getProp tok "refresh_token") <;>
        simp_all [storeTokensWrites]

/-- C3: `storeTokens` performs no storage write when its argument is
absent; otherwise it writes the two token keys independently, each
exactly when the corresponding field is present (truthy); in
particular a token object carrying only an access token writes only
the access key and leaves a previously stored refresh token
unchanged. -/
theorem storeTokens_writes_frame :
    storeTokensWrites Json.null = [] ∧
    (∀ (tok : Json) (v : String), ("access_token", v) ∈ storeTokensWrites tok →
       jsTruthy (getProp tok "access_token") = true) ∧
    (∀ (tok : Json) (v : String), ("refresh_token", v) ∈ storeTokensWrites tok →
       jsTruthy (getProp tok "refresh_token") = true) ∧
    (∀ tok : Json, jsTruthy tok = true → jsTruthy (getProp tok "access_token") = true →
       ("access_token", jsToString (getProp tok "access_token")) ∈ storeTokensWrites tok) ∧
    (∀ tok : Json, jsTruthy tok = true → jsTruthy (getProp tok "refresh_token") = true →
       ("refresh_token", jsToString (getProp tok "refresh_token")) ∈ storeTokensWrites tok) ∧
    storeTokensWrites (Json.obj [("access_token", Json.str "a")]) = [("access_token", "a")] ∧
    (∀ s : Storage,
       (storeTokens (Json.obj [("access_token", Json.str "a")]) s).refresh_token
         = s.refresh_token) := by
  refine ⟨rfl, mem_storeTokensWrites_access, mem_storeTokensWrites_refresh,
    fun tok h1 h2 => ?_, fun tok h1 h3 => ?_, by decide, fun s => ?_⟩
  · by_cases h3 : jsTruthy (getProp tok "refresh_token") <;>
      simp_all [storeTokensWrites]
  · by_cases h2 : jsTruthy (getProp tok "access_token") <;>
      simp_all [storeTokensWrites]
  · have hw : storeTokensWrites (Json.obj [("access_token", Json.str "a")])
        = [("access_token", "a")] := by decide
    simp [storeTokens, applyWrites, hw, Storage.setItem]

/-- Witness for C3: an access-only token object writes only the access
key, and that write implies truthiness of the field. -/
theorem storeTokens_writes_frame_witness :
    jsTruthy (getProp (Json.obj [("access_token", Json.str "a")]) "access_token") = true ∧
    ("access_token", jsToString (getProp (Json.obj [("access_token", Json.str "a")])
        "access_token")) ∈ storeTokensWrites (Json.obj [("access_token", Json.str "a")]) ∧
    (storeTokens (Json.obj [("access_token", Json.str "a")]) ⟨none, some "old"⟩).refresh_token
      = (⟨none, some "old"⟩ : Storage).refresh_token :=
  ⟨storeTokens_writes_frame.2.1 (Json.obj [("access_token", Json.str "a")]) "a"
     (by simp [storeTokensWrites, getProp, jsTruthy, jsToString]),
   storeTokens_writes_frame.2.2.2.1 (Json.obj [("access_token", Json.str "a")]) rfl rfl,
   storeTokens_writes_frame.2.2.2.2.2.2 ⟨none, some "old"⟩⟩

/-- C9: presence of a token field is decided by truthiness, not key
existence: an empty-string field causes no write for its key, and a
token object whose only field is an empty access token leaves storage
entirely unchanged. -/
theorem storeTokens_truthiness :
    (∀ (tok : Json) (v : String), getProp tok "access_token" = Json.str "" →
       ("access_token", v) ∉ storeTokensWrites tok) ∧
    (∀ (tok : Json) (v : String), getProp tok "refresh_token" = Json.str "" →
       ("refresh_token", v) ∉ storeTokensWrites tok) ∧
    storeTokensWrites (Json.obj [("access_token", Json.str "")]) = [] ∧
    (∀ s : Storage, storeTokens (Json.obj [("access_token", Json.str "")]) s = s) := by
  refine ⟨fun tok v h hmem => ?_, fun tok v h hmem => ?_, rfl, fun s => rfl⟩
  · have := mem_storeTokensWrites_access tok v hmem
    rw [h] at this
    simp [jsTruthy] at this
  · have := mem_storeTokensWrites_refresh tok v hmem
    rw [h] at this
    simp [jsTruthy] at this

/-- Witness for C9: the empty-string access token causes no write and
leaves a concrete storage unchanged. -/
theorem storeTokens_truthiness_witness :
    (("access_token", "") ∉
       storeTokensWrites (Json.obj [("access_token", Json.str "")])) ∧
    storeTokens (Json.obj [("access_token", Json.str "")]) ⟨some "A", some "R"⟩
      = (⟨some "A", some "R"⟩ : Storage) :=
  ⟨storeTokens_truthiness.1 (Json.obj [("access_token", Json.str "")]) "" rfl,
   storeTokens_truthiness.2.2.2 ⟨some "A", some "R"⟩⟩

/-- Lookup distributes over concatenation of header objects, first
object first. -/
lemma objGet_append (a b : List (String × String)) (k : String) :
    objGet (a ++ b) k = (objGet a k).or (objGet b k) := by
  unfold objGet
  rw [List.find?_append]
  cases a.find? (fun p => p.1 == k) <;> simp

/-- C5: the outgoing headers of `apiFetch` are the merge of the
Content-Type header, an Authorization bearer header exactly when an
access token is stored, and the caller-supplied headers, with
caller-supplied headers taking precedence on key collision. -/
theorem apiFetchHeaders_merge (s : Storage) (hdrs : List (String × String)) (k : String) :
    objGet (apiFetchHeaders s hdrs) k =
      ((objGet hdrs k).or ((objGet (authHeaders s) k).or
        (objGet [("Content-Type", "application/json")] k))) ∧
    objGet (apiFetchHeaders s hdrs) "Content-Type" =
      ((objGet hdrs "Content-Type").or (some "application/json")) ∧
    objGet (apiFetchHeaders s hdrs) "Authorization" =
      ((objGet hdrs "Authorization").or
        ((getStoredAccessToken s).map (fun t => "Bearer " ++ t))) := by
  have hmain : ∀ k' : String, objGet (apiFetchHeaders s hdrs) k' =
      ((objGet hdrs k').or ((objGet (authHeaders s) k').or
        (objGet [("Content-Type", "application/json")] k'))) := by
    intro k'
    unfold apiFetchHeaders objMerge
    rw [objGet_append, objGet_append]
  refine ⟨hmain k, ?_, ?_⟩
  · rw [hmain "Content-Type"]
    have hauth : objGet (authHeaders s) "Content-Type" = none := by
      cases h : getStoredAccessToken s <;> simp [authHeaders, h, objGet]
    rw [hauth]
    rfl
  · rw [hmain "Authorization"]
    have hauth : objGet (authHeaders s) "Authorization" =
        (getStoredAccessToken s).map (fun t => "Bearer " ++ t) := by
      cases h : getStoredAccessToken s <;> simp [authHeaders, h, objGet]
    rw [hauth]
    have hct : objGet [("Content-Type", "application/json")] "Authorization" = none := by
      simp [objGet]
    rw [hct]
    cases objGet hdrs "Authorization" <;>
      cases (getStoredAccessToken s).map (fun t => "Bearer " ++ t) <;> simp

/-- Reading the refresh key through the storage interface is reading
the refresh field. -/
lemma getItem_refresh (s : Storage) : s.getItem "refresh_token" = s.refresh_token := rfl

/-- C4: `refreshToken` raises immediately with no network call when no
refresh token is persisted (absent or empty, both falsy); otherwise it
POSTs the stored token to the fixed refresh path and, when the call
succeeds, persists the returned pair via `storeTokens` and returns
it. -/
theorem refreshToken_behavior :
    (∀ (s : Storage) (net : Option Response),
       (s.refresh_token = none ∨ s.refresh_token = some "") →
       (refreshToken s net).result = .error (.simple "No refresh token found") ∧
       (refreshToken s net).calls = [] ∧
       (refreshToken s net).storage = s) ∧
    (∀ (s : Storage) (net : Option Response) (rt : String),
       s.refresh_token = some rt → rt ≠ "" →
       (refreshToken s net).calls =
         [⟨"/auth/refresh", "POST", Json.obj [("refresh_token", Json.str rt)]⟩] ∧
       (∀ (resp : Response) (data : Json), net = some resp → apiFetch resp = .ok data →
         (refreshToken s net).storage = storeTokens data s ∧
         (refreshToken s net).result = .ok data)) := by
  constructor
  · rintro s net (h | h) <;> simp [refreshToken, getItem_refresh, h]
  · intro s net rt h hne
    cases net with
    | none =>
      refine ⟨by simp [refreshToken, getItem_refresh, h, hne], ?_⟩
      rintro resp data ⟨⟩
    | some resp =>
      cases hfe : apiFetch resp with
      | error e =>
        refine ⟨by simp [refreshToken, getItem_refresh, h, hne, hfe], ?_⟩
        rintro resp' data hr h2
        rw [Option.some.injEq] at hr
        rw [← hr] at h2
        rw [hfe] at h2
        cases h2
      | ok d =>
        refine ⟨by simp [refreshToken, getItem_refresh, h, hne, hfe], ?_⟩
        rintro resp' data hr h2
        rw [Option.some.injEq] at hr
        rw [← hr] at h2
        rw [hfe] at h2
        rw [Except.ok.injEq] at h2
        subst h2
        constructor <;> simp [refreshToken, getItem_refresh, h, hne, hfe]

/-- Witness for C4: empty storage short-circuits; a stored token with a
successful refresh response persists and returns the new pair. -/
theorem refreshToken_behavior_witness :
    ((refreshToken ⟨none, none⟩ none).result = .error (.simple "No refresh token found") ∧
     (refreshToken ⟨none, none⟩ none).calls = [] ∧
     (refreshToken ⟨none, none⟩ none).storage = ⟨none, none⟩) ∧
    ((refreshToken ⟨none, some "R"⟩
        (some ⟨200, some "application/json",
          Json.obj [("access_token", Json.str "A2"), ("refresh_token", Json.str "R2")], ""⟩)).calls
      = [⟨"/auth/refresh", "POST", Json.obj [("refresh_token", Json.str "R")]⟩] ∧
     (refreshToken ⟨none, some "R"⟩
        (some ⟨200, some "application/json",
          Json.obj [("access_token", Json.str "A2"), ("refresh_token", Json.str "R2")], ""⟩)).storage
      = storeTokens (Json.obj [("access_token", Json.str "A2"),
          ("refresh_token", Json.str "R2")]) ⟨none, some "R"⟩ ∧
     (refreshToken ⟨none, some "R"⟩
        (some ⟨200, some "application/json",
          Json.obj [("access_token", Json.str "A2"), ("refresh_token", Json.str "R2")], ""⟩)).result
      = .ok (Json.obj [("access_token", Json.str "A2"), ("refresh_token", Json.str "R2")])) := by
  constructor
  · exact refreshToken_behavior.1 ⟨none, none⟩ none (Or.inl rfl)
  · have h := refreshToken_behavior.2 ⟨none, some "R"⟩
      (some ⟨200, some "application/json",
        Json.obj [("access_token", Json.str "A2"), ("refresh_token", Json.str "R2")], ""⟩)
      "R" rfl (by decide)
    have h2 := h.2 ⟨200, some "application/json",
        Json.obj [("access_token", Json.str "A2"), ("refresh_token", Json.str "R2")], ""⟩
      (Json.obj [("access_token", Json.str "A2"), ("refresh_token", Json.str "R2")])
      rfl (by simp [apiFetch, interpretBody, Response.ok, containsSubstr])
    exact ⟨h.1, h2.1, h2.2⟩

/-- C8: `refreshToken` is atomic with respect to persisted storage on
failure: whenever it results in an error, it performed no storage write
and the storage is unchanged. -/
theorem refreshToken_failure_atomic (s : Storage) (net : Option Response) (e : JsError)
    (h : (refreshToken s net).result = .error e) :
    (refreshToken s net).writes = [] ∧ (refreshToken s net).storage = s := by
  cases hg : s.refresh_token with
  | none => simp [refreshToken, getItem_refresh, hg]
  | some rt =>
    by_cases hrt : rt = ""
    · simp [refreshToken, getItem_refresh, hg, hrt]
    · cases net with
      | none => simp [refreshToken, getItem_refresh, hg, hrt]
      | some resp =>
        cases hfe : apiFetch resp with
        | error e2 => simp [refreshToken, getItem_refresh, hg, hrt, hfe]
        | ok d =>
          exfalso
          rw [show (refreshToken s (some resp)).result
              = Except.ok d by simp [refreshToken, getItem_refresh, hg, hrt, hfe]] at h
          cases h

/-- Witness for C8: a 500 refresh response leaves a populated storage
untouched. -/
theorem refreshToken_failure_atomic_witness :
    (refreshToken ⟨some "A", some "R"⟩ (some ⟨500, none, Json.null, ""⟩)).writes = [] ∧
    (refreshToken ⟨some "A", some "R"⟩ (some ⟨500, none, Json.null, ""⟩)).storage
      = ⟨some "A", some "R"⟩ :=
  refreshToken_failure_atomic ⟨some "A", some "R"⟩ (some ⟨500, none, Json.null, ""⟩)
    (.api ⟨Json.str "Request failed with 500", 500, Json.null⟩)
    (by
      have h500 : "Request failed with " ++ toString (500 : Nat) = "Request failed with 500" :=
        rfl
      simp [refreshToken, getItem_refresh, apiFetch, interpretBody, Response.ok,
        containsSubstr, errMsgVal, jsOr, getProp, jsTruthy, h500])

/-- C7: when a login error carries a list of validation detail objects,
the form displays the join of their individual `msg` strings (the
concrete 422 rejection displays exactly its message); otherwise it
displays the own message of the error or the generic fallback, and the
loading flag is cleared on completion in every case. -/
theorem login_error_display :
    (∀ (s : Storage) (e : ApiError) (ds : List Json),
       getProp e.data "detail" = Json.arr ds →
       (onSubmit s (.error (.api e))).ui.error =
         String.intercalate ", "
           (((ds.map fun d => getProp d "msg").filter jsTruthy).map jsToString) ∧
       (onSubmit s (.error (.api e))).ui.loading = false) ∧
    (onSubmit ⟨none, none⟩ (.error (.api ⟨Json.str "x", 422,
        Json.obj [("detail", Json.arr [Json.obj
          [("msg", Json.str "value is not a valid email address")]])]⟩))).ui.error =
      "value is not a valid email address" ∧
    (∀ (s : Storage) (m : String),
       (onSubmit s (.error (.simple m))).ui.error =
         (if m = "" then "Login failed" else m)) ∧
    (∀ (s : Storage) (e : ApiError),
       (∀ ds : List Json, getProp e.data "detail" ≠ Json.arr ds) →
       (onSubmit s (.error (.api e))).ui.error =
         (if jsToString e.msgVal = "" then "Login failed" else jsToString e.msgVal)) ∧
    (∀ (s : Storage) (lr : Except JsError Json), (onSubmit s lr).ui.loading = false) := by
  refine ⟨fun s e ds h => ⟨?_, rfl⟩, ?_, fun s m => ?_, fun s e h => ?_, fun s lr => ?_⟩
  · simp [onSubmit, loginCatchMessage, h]
  · rfl
  · by_cases hm : m = "" <;>
      simp [onSubmit, loginCatchMessage, errMessageStr, hm]
  · cases hd : getProp e.data "detail" with
    | arr ds => exact absurd hd (h ds)
    | null =>
      by_cases hm : jsToString e.msgVal = "" <;>
        simp [onSubmit, loginCatchMessage, errMessageStr, hd, hm]
    | bool b =>
      by_cases hm : jsToString e.msgVal = "" <;>
        simp [onSubmit, loginCatchMessage, errMessageStr, hd, hm]
    | num n =>
      by_cases hm : jsToString e.msgVal = "" <;>
        simp [onSubmit, loginCatchMessage, errMessageStr, hd, hm]
    | str st =>
      by_cases hm : jsToString e.msgVal = "" <;>
        simp [onSubmit, loginCatchMessage, errMessageStr, hd, hm]
    | obj fs =>
      by_cases hm : jsToString e.msgVal = "" <;>
        simp [onSubmit, loginCatchMessage, errMessageStr, hd, hm]
  · cases lr with
    | error err => rfl
    | ok res =>
      by_cases hc : (jsTruthy res &&
          (jsTruthy (getProp res "access_token") ||
            jsTruthy (getProp res "refresh_token"))) = true <;>
        simp [onSubmit, hc]

/-- Witness for C7: a concrete detail list, a plain error message and a
structured error without detail list. -/
theorem login_error_display_witness :
    ((onSubmit ⟨none, none⟩ (.error (.api ⟨Json.str "x", 422,
        Json.obj [("detail", Json.arr [Json.obj [("msg", Json.str "bad")]])]⟩))).ui.error =
      String.intercalate ", "
        ((([Json.obj [("msg", Json.str "bad")]].map fun d => getProp d "msg").filter
          jsTruthy).map jsToString) ∧
     (onSubmit ⟨none, none⟩ (.error (.api ⟨Json.str "x", 422,
        Json.obj [("detail", Json.arr [Json.obj [("msg", Json.str "bad")]])]⟩))).ui.loading
       = false) ∧
    (onSubmit ⟨none, none⟩ (.error (.simple "boom"))).ui.error =
      (if ("boom" : String) = "" then "Login failed" else "boom") ∧
    (onSubmit ⟨none, none⟩ (.error (.api ⟨Json.str "srv", 500, Json.null⟩))).ui.error =
      (if jsToString (Json.str "srv") = "" then "Login failed"
       else jsToString (Json.str "srv")) :=
  ⟨login_error_display.1 ⟨none, none⟩ ⟨Json.str "x", 422,
      Json.obj [("detail", Json.arr [Json.obj [("msg", Json.str "bad")]])]⟩
      [Json.obj [("msg", Json.str "bad")]] (by simp [getProp]),
   login_error_display.2.2.1 ⟨none, none⟩ "boom",
   login_error_display.2.2.2.1 ⟨none, none⟩ ⟨Json.str "srv", 500, Json.null⟩
     (fun ds h => Json.noConfusion h)⟩

end ApiClient


